import Mathlib

/-!
Verification of the dual-mode JIRA API client of jira-tui.

The definitions below are a shallow embedding of the TypeScript sources:

* `src/api/client.ts`   — transport primitive, the two client variants, the
  factory, `getProjectIssues`, `getFieldOptions`, `JiraApiError`;
* `src/api/types.ts`    — `getUserIdentifier` and the data shapes;
* `src/config/fields-cache.ts` (shown in `src/config/cache.ts`) — the
  edit-metadata cache (`makeKey`, `putEditMeta`, `getFields`);
* `src/ui/components/bulk-edit.ts`      — the sequential bulk-save loop;
* `src/ui/components/field-selector.ts` — `loadFields` and its two mapping
  branches (fresh fetch vs cache hit).

Network effects are modelled by passing the response the server would
deliver as an explicit argument; file-backed state is modelled by explicit
state passing.  Machine integers do not occur (status codes and counts are
small naturals).
-/

namespace JiraTui

/-- JSON values, used for the payloads that the transport parses and
returns untouched. -/
inductive Json where
  | null : Json
  | bool (b : Bool) : Json
  | num (n : Int) : Json
  | str (s : String) : Json
  | arr (xs : List Json) : Json
  | obj (fields : List (String × Json)) : Json

/-- Deployment mode of `JiraConfig` (`src/config/types.ts`): the string
union `"cloud" | "onprem"`. -/
inductive JiraMode where
  | cloud : JiraMode
  | onprem : JiraMode
deriving DecidableEq, Repr

/-- Connection configuration (`JiraConfig` in `src/config/types.ts`). -/
structure JiraConfig where
  mode : JiraMode
  baseUrl : String
  username : String
  password : String
deriving DecidableEq, Repr

/-- One HTTP response as the `fetch` call delivers it: numeric status,
status text, body read as text, and — when the body is valid JSON — the
value `response.json()` would produce.  `parsed = none` models a body that
is not JSON. -/
structure HttpResponse (α : Type) where
  status : Nat
  statusText : String
  bodyText : String
  parsed : Option α

/-- Error outcomes of `BaseJiraClient.request` (`src/api/client.ts`,
lines 45-71).  `apiError` embeds `JiraApiError` (lines 233-242): message,
numeric `statusCode`, raw `responseBody`.  `parseError` models the
rejection of `response.json()` on a 2xx body that is not JSON.  The
taxonomy has no timeout kind: the code contains no such classification. -/
inductive RequestError where
  | apiError (message : String) (statusCode : Nat) (responseBody : String) : RequestError
  | parseError : RequestError
deriving DecidableEq, Repr

/-- Embedding of `BaseJiraClient.request` applied to the single response
the `fetch` call delivered (`src/api/client.ts`, lines 45-71).  `fetch`
marks `response.ok` exactly when the status is in 200..299; on a non-ok
status the code reads the body as text and throws `JiraApiError` with the
numeric status and that raw text; on an ok status it returns
`response.json()` unchanged. -/
def request {α : Type} (r : HttpResponse α) : Except RequestError α :=
  if 200 ≤ r.status ∧ r.status < 300 then
    match r.parsed with
    | some v => Except.ok v
    | none => Except.error RequestError.parseError
  else
    Except.error (RequestError.apiError
      ("JIRA API Error: " ++ toString r.status ++ " " ++ r.statusText)
      r.status r.bodyText)

/-- Trace form of `request`: the first element of the trace is the
response the single `fetch` call receives; the body of `request` performs
exactly one `fetch` and contains no retry loop, so the remaining responses
of the trace are returned unconsumed. -/
def requestTrace {α : Type} (first : HttpResponse α) (rest : List (HttpResponse α)) :
    Except RequestError α × List (HttpResponse α) :=
  (request first, rest)

/-- Timed form of `request`: `d` is the duration (milliseconds) the
underlying `fetch` takes to settle.  `request` awaits `fetch` directly —
lines 45-71 of `src/api/client.ts` create no `AbortController`, timer or
`Promise.race` — so the operation completes exactly when `fetch` does and
its outcome is whatever that single response yields. -/
def requestTimed {α : Type} (d : Nat) (r : HttpResponse α) :
    Nat × Except RequestError α :=
  (d, request r)

/-- Embedding of the `baseUrl` getter (`src/api/client.ts`, line 34-36):
`this.config.baseUrl.replace(/\/$/, "")` removes a single trailing slash
when one is present and is the identity otherwise. -/
def jsReplaceTrailingSlash (s : String) : String :=
  if s.data.reverse.head? = some '/' then String.mk s.data.reverse.tail.reverse else s

/-- Absolute URL of a request: stripped base URL followed by the endpoint
path (`src/api/client.ts`, line 49). -/
def requestUrl (c : JiraConfig) (endpoint : String) : String :=
  jsReplaceTrailingSlash c.baseUrl ++ endpoint

/-- Modelled from the spec: a base URL "with no trailing slash" — every
trailing slash removed.  Used only to compare the code's single-slash
stripping against the specified shape. -/
def stripAllTrailingSlashes (s : String) : String :=
  String.mk ((s.data.reverse.dropWhile (fun ch => ch = '/')).reverse)

/-- True when the string ends in two slashes; the one shape on which
stripping a single trailing slash leaves a trailing slash behind. -/
def endsWithTwoSlashes (s : String) : Bool :=
  decide (s.data.reverse.head? = some '/') && decide (s.data.reverse.tail.head? = some '/')

/-- The two concrete client classes of `src/api/client.ts`. -/
inductive ClientVariant where
  | cloudClient : ClientVariant
  | dataCenterClient : ClientVariant
deriving DecidableEq, Repr

/-- Embedding of `createJiraClient` (`src/api/client.ts`, lines 244-249):
`mode === "cloud"` selects `CloudJiraClient`, anything else
`DataCenterJiraClient`. -/
def createJiraClient (c : JiraConfig) : ClientVariant :=
  match c.mode with
  | JiraMode.cloud => ClientVariant.cloudClient
  | JiraMode.onprem => ClientVariant.dataCenterClient

/-- The `apiBase` getter of each variant: `"/rest/api/" + apiVersion`
with `apiVersion = "3"` in `CloudJiraClient` and `"2"` in
`DataCenterJiraClient`. -/
def variantApiBase : ClientVariant → String
  | ClientVariant.cloudClient => "/rest/api/" ++ "3"
  | ClientVariant.dataCenterClient => "/rest/api/" ++ "2"

theorem jsReplace_eq_stripAll (s : String) (h : endsWithTwoSlashes s = false) :
    jsReplaceTrailingSlash s = stripAllTrailingSlashes s := by
  obtain ⟨l⟩ := s
  have hconv : l = l.reverse.reverse := (List.reverse_reverse l).symm
  rcases hr : l.reverse with _ | ⟨c, rest⟩
  · have hl : l = [] := by rw [hconv, hr]; rfl
    subst hl
    rfl
  · by_cases hc : c = '/'
    · subst hc
      have hrest : rest.head? ≠ some '/' := by
        intro hx
        unfold endsWithTwoSlashes at h
        rw [hr] at h
        simp [hx] at h
      unfold jsReplaceTrailingSlash stripAllTrailingSlashes
      simp only [hr, List.tail_cons]
      rw [if_pos (show ('/' :: rest).head? = some '/' from rfl)]
      have h1 : List.dropWhile (fun ch => ch = '/') ('/' :: rest) =
          List.dropWhile (fun ch => ch = '/') rest := by
        simp [List.dropWhile_cons]
      have h2 : List.dropWhile (fun ch => ch = '/') rest = rest := by
        cases rest with
        | nil => rfl
        | cons c2 r2 =>
          have hc2 : ¬ (c2 = '/') := by
            intro hcc
            exact hrest (by simp [hcc])
          simp [List.dropWhile_cons, hc2]
      rw [h1, h2]
    · unfold jsReplaceTrailingSlash stripAllTrailingSlashes
      simp only [hr]
      rw [if_neg (by simp [hc])]
      have hdrop : List.dropWhile (fun ch => ch = '/') (c :: rest) = c :: rest := by
        simp [List.dropWhile_cons, hc]
      rw [hdrop, ← hr, List.reverse_reverse]

/-- Search options (`SearchOptions` in `src/api/types.ts`): every field is
optional.  `getProjectIssues` receives the `jql`-less variant; the embedding
keeps the full shape and overwrites `jql`, exactly as the object spread
does. -/
structure SearchOptions where
  jql : Option String
  startAt : Option Nat
  maxResults : Option Nat
  fields : Option (List String)
deriving DecidableEq, Repr

/-- The default field list of `BaseJiraClient.getProjectIssues`
(`src/api/client.ts`, line 86). -/
def defaultProjectFields : List String :=
  ["summary", "status", "created", "updated", "assignee", "priority", "issuetype"]

/-- Embedding of `BaseJiraClient.getProjectIssues` (`src/api/client.ts`,
lines 79-88): the value of this function is the `SearchOptions` object the
method passes to `this.searchIssues` — the caller's options with `jql`
overwritten and `fields` defaulted via `??`. -/
def getProjectIssuesOptions (projectKey : String) (options : SearchOptions) : SearchOptions :=
  { options with
    jql := some ("project = " ++ projectKey ++ " ORDER BY created DESC")
    fields := some (options.fields.getD defaultProjectFields) }

/-- Request body of `DataCenterJiraClient.searchIssues`
(`src/api/client.ts`, lines 170-185): `fields = none` means the key is
absent from the serialized JSON object. -/
structure DcSearchBody where
  jql : String
  startAt : Nat
  maxResults : Nat
  fields : Option (List String)
deriving DecidableEq, Repr

/-- Embedding of the body construction of `DataCenterJiraClient.searchIssues`:
defaults `jql` to `""`, `startAt` to 0, `maxResults` to 50, and attaches
`fields` only when `options.fields?.length` is truthy (present and
non-empty). -/
def dcSearchBody (o : SearchOptions) : DcSearchBody :=
  { jql := o.jql.getD ""
    startAt := o.startAt.getD 0
    maxResults := o.maxResults.getD 50
    fields :=
      match o.fields with
      | some fs => if 0 < fs.length then some fs else none
      | none => none }

/-- The complete HTTP request `DataCenterJiraClient.searchIssues` issues:
`POST` to `baseUrl + "/rest/api/2/search"` with the JSON body above. -/
structure DcSearchRequest where
  method : String
  url : String
  body : DcSearchBody
deriving DecidableEq, Repr

/-- Embedding of `DataCenterJiraClient.searchIssues` on the request side. -/
def dcSearchRequest (c : JiraConfig) (o : SearchOptions) : DcSearchRequest :=
  { method := "POST"
    url := requestUrl c ("/rest/api/" ++ "2" ++ "/search")
    body := dcSearchBody o }

/-- Concrete ok response used to exercise the transport. -/
def okJsonResponse : HttpResponse Json :=
  { status := 200, statusText := "OK", bodyText := "", parsed := some (Json.obj []) }

/-- C1: the claim states that every client operation is bounded by a fixed
10-second client-side timeout, the in-flight call being cancelled on expiry
and failing with a Timeout error kind.  This theorem refutes the claim at a
concrete input: a request whose single `fetch` settles only after a full
hour (3 600 000 ms) is never cancelled — it completes at 3 600 000 ms, far
past the 10 000 ms deadline, and succeeds rather than failing with any
error, timeout or otherwise. -/
theorem c1_counterexample :
    (requestTimed 3600000 okJsonResponse).1 = 3600000 ∧
    10000 < (requestTimed 3600000 okJsonResponse).1 ∧
    (requestTimed 3600000 okJsonResponse).2 = Except.ok (Json.obj []) := by
  refine ⟨rfl, by decide, rfl⟩

/-- C1 (amended): the transport enforces no client-side timeout.  The
outcome of a request is independent of how long the `fetch` takes, and for
every candidate deadline there is a request that completes strictly later
and still succeeds — no finite bound confines the operation, and no Timeout
error kind exists in the code's error taxonomy. -/
theorem c1_no_timeout :
    (∀ (d e : Nat) (r : HttpResponse Json), (requestTimed d r).2 = (requestTimed e r).2) ∧
    (∀ B : Nat, ∃ d : Nat, ∃ r : HttpResponse Json,
      B < (requestTimed d r).1 ∧ (requestTimed d r).2 = Except.ok (Json.obj [])) := by
  refine ⟨fun d e r => rfl, fun B => ⟨B + 1, okJsonResponse, Nat.lt_succ_self B, rfl⟩⟩

/-- C4: on every non-2xx HTTP status, the single request fails with an
`ApiError` carrying the numeric status code and the response body as raw
text — the body is never parsed as JSON (the outcome is the same whether or
not `parsed` is available) — and no retry happens: the rest of the response
trace is returned unconsumed. -/
theorem c4_api_error (first : HttpResponse Json) (rest : List (HttpResponse Json))
    (h : ¬ (200 ≤ first.status ∧ first.status < 300)) :
    requestTrace first rest =
      (Except.error (RequestError.apiError
        ("JIRA API Error: " ++ toString first.status ++ " " ++ first.statusText)
        first.status first.bodyText), rest) := by
  unfold requestTrace request
  rw [if_neg h]

/-- C4 witness: a simulated 404 whose body is plain HTML (not JSON) makes
the operation fail with statusCode 404 and exactly that body text, and the
second stubbed response stays unconsumed. -/
theorem c4_witness :
    requestTrace
      { status := 404, statusText := "Not Found",
        bodyText := "<html>issue store is down</html>", parsed := (none : Option Json) }
      [okJsonResponse] =
    (Except.error (RequestError.apiError "JIRA API Error: 404 Not Found" 404
      "<html>issue store is down</html>"), [okJsonResponse]) :=
  c4_api_error _ _ (by decide)

/-- Concrete configuration whose base URL ends in two slashes. -/
def doubleSlashConfig : JiraConfig :=
  { mode := JiraMode.cloud, baseUrl := "https://jira.example.com//",
    username := "alice", password := "tok" }

/-- C5: the claim states the absolute URL is the configured `baseUrl` with
no trailing slash followed by the endpoint path, for every configuration.
Refuted at a base URL ending in two slashes: `replace(/\/$/,"")` strips
only one of them, so the composed URL keeps a double slash before the
endpoint and differs from the claimed shape. -/
theorem c5_counterexample :
    requestUrl doubleSlashConfig "/rest/api/3/myself" =
      "https://jira.example.com//rest/api/3/myself" ∧
    stripAllTrailingSlashes doubleSlashConfig.baseUrl ++ "/rest/api/3/myself" =
      "https://jira.example.com/rest/api/3/myself" ∧
    requestUrl doubleSlashConfig "/rest/api/3/myself" ≠
      stripAllTrailingSlashes doubleSlashConfig.baseUrl ++ "/rest/api/3/myself" := by
  refine ⟨by decide, by decide, by decide⟩

/-- C5 (amended): the absolute URL is the configured `baseUrl` with a
single trailing slash stripped, followed by the endpoint path; whenever
`baseUrl` does not end in a double slash this coincides with removing every
trailing slash.  The factory maps Cloud mode to the variant whose path
prefix is `/rest/api/3` and OnPrem mode to the variant whose prefix is
`/rest/api/2`. -/
theorem c5_url_composition (c : JiraConfig) (endpoint : String)
    (h : endsWithTwoSlashes c.baseUrl = false) :
    requestUrl c endpoint = stripAllTrailingSlashes c.baseUrl ++ endpoint ∧
    (c.mode = JiraMode.cloud → variantApiBase (createJiraClient c) = "/rest/api/3") ∧
    (c.mode = JiraMode.onprem → variantApiBase (createJiraClient c) = "/rest/api/2") := by
  refine ⟨?_, ?_, ?_⟩
  · unfold requestUrl
    rw [jsReplace_eq_stripAll c.baseUrl h]
  · intro hm
    unfold createJiraClient
    rw [hm]
    rfl
  · intro hm
    unfold createJiraClient
    rw [hm]
    rfl

/-- C5 witness: the composition theorem applied to a concrete Cloud
configuration whose base URL carries one trailing slash. -/
theorem c5_witness :
    requestUrl
      { mode := JiraMode.cloud, baseUrl := "https://jira.example.com/",
        username := "alice", password := "tok" } "/rest/api/3/search" =
      stripAllTrailingSlashes "https://jira.example.com/" ++ "/rest/api/3/search" ∧
    variantApiBase (createJiraClient
      { mode := JiraMode.cloud, baseUrl := "https://jira.example.com/",
        username := "alice", password := "tok" }) = "/rest/api/3" := by
  have h := c5_url_composition
    { mode := JiraMode.cloud, baseUrl := "https://jira.example.com/",
      username := "alice", password := "tok" } "/rest/api/3/search" (by decide)
  exact ⟨h.1, h.2.1 rfl⟩

/-- C2: the claim states that `getProjectIssues(key, options)` with no
explicit fields delegates with the documented three-entry default field
list `summary, status, created`.  Refuted at `key = "DEMO"` with empty
options: the code defaults `fields` to a seven-entry list, which differs
from the claimed default. -/
theorem c2_counterexample :
    (getProjectIssuesOptions "DEMO"
      { jql := none, startAt := none, maxResults := none, fields := none }).jql =
        some "project = DEMO ORDER BY created DESC" ∧
    (getProjectIssuesOptions "DEMO"
      { jql := none, startAt := none, maxResults := none, fields := none }).fields =
        some defaultProjectFields ∧
    (getProjectIssuesOptions "DEMO"
      { jql := none, startAt := none, maxResults := none, fields := none }).fields ≠
        some ["summary", "status", "created"] := by
  refine ⟨by decide, by decide, by decide⟩

/-- C2 (amended): for every project key and options without an explicit
fields list, `getProjectIssues` delegates to `searchIssues` with `jql`
equal to exactly `project = {key} ORDER BY created DESC`, with the
seven-entry default field list `summary, status, created, updated,
assignee, priority, issuetype` (the default is applied inside
`getProjectIssues`; `searchIssues` itself applies no field default), and
with the pagination options passed through unchanged. -/
theorem c2_default_fields (key : String) (o : SearchOptions) (h : o.fields = none) :
    (getProjectIssuesOptions key o).jql =
      some ("project = " ++ key ++ " ORDER BY created DESC") ∧
    (getProjectIssuesOptions key o).fields = some defaultProjectFields ∧
    (getProjectIssuesOptions key o).startAt = o.startAt ∧
    (getProjectIssuesOptions key o).maxResults = o.maxResults ∧
    defaultProjectFields =
      ["summary", "status", "created", "updated", "assignee", "priority", "issuetype"] := by
  unfold getProjectIssuesOptions
  rw [h]
  exact ⟨rfl, rfl, rfl, rfl, rfl⟩

/-- C2 witness: the amended delegation applied to the key `DEMO` and empty
options. -/
theorem c2_witness :
    (getProjectIssuesOptions "DEMO"
      { jql := none, startAt := none, maxResults := none, fields := none }).jql =
      some ("project = " ++ "DEMO" ++ " ORDER BY created DESC") ∧
    (getProjectIssuesOptions "DEMO"
      { jql := none, startAt := none, maxResults := none, fields := none }).fields =
      some defaultProjectFields :=
  ⟨(c2_default_fields "DEMO" _ rfl).1, (c2_default_fields "DEMO" _ rfl).2.1⟩

/-- The configuration of the C3 scenario. -/
def onPremDemoConfig : JiraConfig :=
  { mode := JiraMode.onprem, baseUrl := "https://jira.example.com",
    username := "alice", password := "pat123" }

/-- The options `getProjectIssues("DEMO", \x7bmaxResults: 2\x7d)` passes to
`searchIssues` in the C3 scenario. -/
def demoSearchOptions : SearchOptions :=
  getProjectIssuesOptions "DEMO"
    { jql := none, startAt := none, maxResults := some 2, fields := none }

/-- The stubbed search response of the C3 scenario, as a JSON value. -/
def demoSearchResponseJson : Json :=
  Json.obj
    [("startAt", Json.num 0), ("maxResults", Json.num 2), ("total", Json.num 5),
     ("issues",
      Json.arr
        [Json.obj [("id", Json.str "10001"), ("key", Json.str "DEMO-1")],
         Json.obj [("id", Json.str "10002"), ("key", Json.str "DEMO-2")]])]

/-- C3: the claim states the request body is exactly
`jql / startAt / maxResults` with no further keys.  Refuted: because
`getProjectIssues` always installs a default `fields` list, the POST body
of the scenario also carries `fields`, so it differs from the claimed
three-key body. -/
theorem c3_counterexample :
    (dcSearchRequest onPremDemoConfig demoSearchOptions).body.fields =
      some defaultProjectFields ∧
    (dcSearchRequest onPremDemoConfig demoSearchOptions).body ≠
      { jql := "project = DEMO ORDER BY created DESC", startAt := 0,
        maxResults := 2, fields := none } := by
  refine ⟨by decide, by decide⟩

/-- C3 (amended): for the on-prem configuration of the scenario,
`getProjectIssues("DEMO", maxResults 2)` issues
`POST https://jira.example.com/rest/api/2/search` whose body carries
`jql = "project = DEMO ORDER BY created DESC"`, `startAt = 0`,
`maxResults = 2` and additionally the default seven-entry `fields` list;
and every 2xx response parsed to the stubbed search document is returned
to the caller unchanged in shape. -/
theorem c3_onprem_search (resp : HttpResponse Json)
    (h1 : 200 ≤ resp.status) (h2 : resp.status < 300)
    (h3 : resp.parsed = some demoSearchResponseJson) :
    dcSearchRequest onPremDemoConfig demoSearchOptions =
      { method := "POST", url := "https://jira.example.com/rest/api/2/search",
        body := { jql := "project = DEMO ORDER BY created DESC", startAt := 0,
                  maxResults := 2, fields := some defaultProjectFields } } ∧
    request resp = Except.ok demoSearchResponseJson := by
  constructor
  · decide
  · unfold request
    rw [if_pos ⟨h1, h2⟩, h3]

/-- C3 witness: the scenario theorem applied to a concrete 200 response
carrying the stubbed document. -/
theorem c3_witness :
    request { status := 200, statusText := "OK", bodyText := "stub",
              parsed := some demoSearchResponseJson } =
      Except.ok demoSearchResponseJson :=
  (c3_onprem_search
    { status := 200, statusText := "OK", bodyText := "stub",
      parsed := some demoSearchResponseJson }
    (by decide) (by decide) rfl).2

/-- JavaScript `a || dflt` on an optional string: the default is taken
when the value is missing or is the empty string (falsy). -/
def jsStrOr (o : Option String) (dflt : String) : String :=
  match o with
  | some s => if s = "" then dflt else s
  | none => dflt

/-- User record (`JiraUser` in `src/api/types.ts`): Cloud carries
`accountId`, on-prem carries `name`; both are optional. -/
structure JiraUser where
  self : String
  displayName : String
  emailAddress : Option String
  accountId : Option String
  name : Option String
deriving DecidableEq, Repr

/-- Embedding of `getUserIdentifier` (`src/api/types.ts`, lines 323-328):
`user.accountId || ""` under cloud mode, `user.name || ""` otherwise. -/
def getUserIdentifier (user : JiraUser) (isCloud : Bool) : String :=
  if isCloud then jsStrOr user.accountId "" else jsStrOr user.name ""

theorem jsStrOr_empty (o : Option String) : jsStrOr o "" = o.getD "" := by
  cases o with
  | none => rfl
  | some s =>
    show (if s = "" then "" else s) = s
    by_cases h : s = ""
    · rw [if_pos h, h]
    · rw [if_neg h]

/-- C6: in cloud mode `getUserIdentifier` returns the `accountId` when
present and the empty string when absent, and its value never depends on
the `name` field; in on-prem mode it returns `name` when present and the
empty string when absent, never depending on `accountId`.  The function is
total on every user record (it cannot throw). -/
theorem c6_user_identifier :
    ∀ u : JiraUser,
      getUserIdentifier u true = u.accountId.getD "" ∧
      getUserIdentifier u false = u.name.getD "" ∧
      (∀ v, getUserIdentifier { u with name := v } true = getUserIdentifier u true) ∧
      (∀ v, getUserIdentifier { u with accountId := v } false = getUserIdentifier u false) := by
  intro u
  refine ⟨?_, ?_, fun v => rfl, fun v => rfl⟩
  · show jsStrOr u.accountId "" = u.accountId.getD ""
    exact jsStrOr_empty u.accountId
  · show jsStrOr u.name "" = u.name.getD ""
    exact jsStrOr_empty u.name

/-- Selectable field option (`FieldOption` in `src/api/client.ts`,
lines 9-13). -/
structure FieldOption where
  id : String
  value : String
  name : Option String
deriving DecidableEq, Repr

/-- The hardcoded severity fallback list both variants return when the
live option lookup cannot be completed (`src/api/client.ts`, lines 147-153
and 221-227). -/
def severityFallback : List FieldOption :=
  [{ id := "1", value := "1 - Critical", name := none },
   { id := "2", value := "2 - High", name := none },
   { id := "3", value := "3 - Medium", name := none },
   { id := "4", value := "4 - Low", name := none },
   { id := "5", value := "5 - Trivial", name := none }]

/-- JavaScript truthiness of an optional string (`if (fieldId)`): false
for missing and for the empty string. -/
def jsTruthy (o : Option String) : Bool :=
  match o with
  | some s => !(s = "")
  | none => false

/-- Lower-casing used by the `fieldName.toLowerCase()` comparisons: the
field names involved are ASCII, where JavaScript `toLowerCase` and
per-character lowering agree. -/
def lowerAscii (s : String) : String :=
  String.mk (s.data.map Char.toLower)

/-- One entry of the Cloud option-context response
(`values: Array of id/value`). -/
structure CloudOptionValue where
  id : String
  value : String
deriving DecidableEq, Repr

/-- Embedding of `CloudJiraClient.getFieldOptions` (`src/api/client.ts`,
lines 134-156).  `fieldId` is the value `getFieldId("Severity")` resolved
(that method returns null rather than throwing); `fetch` is the outcome of
the option-context request. -/
def cloudGetFieldOptions (fieldName : String) (fieldId : Option String)
    (fetch : Except RequestError (List CloudOptionValue)) : List FieldOption :=
  if lowerAscii fieldName = "severity" then
    if jsTruthy fieldId then
      match fetch with
      | Except.ok values => values.map (fun v => { id := v.id, value := v.value, name := none })
      | Except.error _ => severityFallback
    else severityFallback
  else []

/-- One entry of the on-prem createmeta `allowedValues` array
(id, value, optional name). -/
structure DcAllowedValue where
  id : String
  value : String
  name : Option String
deriving DecidableEq, Repr

/-- The on-prem createmeta response: `allowedValues` may be absent. -/
structure DcCreateMetaResponse where
  allowedValues : Option (List DcAllowedValue)
deriving DecidableEq, Repr

/-- Embedding of `DataCenterJiraClient.getFieldOptions`
(`src/api/client.ts`, lines 206-230): on a successful createmeta fetch with
`allowedValues` present, each entry maps to `id` and `name || value`;
otherwise the severity fallback applies. -/
def dcGetFieldOptions (fieldName : String) (fieldId : Option String)
    (fetch : Except RequestError DcCreateMetaResponse) : List FieldOption :=
  if lowerAscii fieldName = "severity" then
    if jsTruthy fieldId then
      match fetch with
      | Except.ok resp =>
        match resp.allowedValues with
        | some vs => vs.map (fun v => { id := v.id, value := jsStrOr v.name v.value, name := none })
        | none => severityFallback
      | Except.error _ => severityFallback
    else severityFallback
  else []

/-- C7: for both variants, whenever the live severity lookup fails — the
field id is not resolved or the option fetch errors — `getFieldOptions`
returns exactly the five-entry fallback with ids "1".."5" in
Critical→Trivial order; and for every field name other than "severity"
(case-insensitively) it returns the empty list. -/
theorem c7_severity_fallback (name : String) (fieldId : Option String)
    (cloudFetch : Except RequestError (List CloudOptionValue))
    (dcFetch : Except RequestError DcCreateMetaResponse) :
    (lowerAscii name = "severity" → (fieldId = none ∨ ∃ e, cloudFetch = Except.error e) →
      cloudGetFieldOptions name fieldId cloudFetch = severityFallback) ∧
    (lowerAscii name = "severity" → (fieldId = none ∨ ∃ e, dcFetch = Except.error e) →
      dcGetFieldOptions name fieldId dcFetch = severityFallback) ∧
    (lowerAscii name ≠ "severity" →
      cloudGetFieldOptions name fieldId cloudFetch = [] ∧
      dcGetFieldOptions name fieldId dcFetch = []) ∧
    severityFallback.map FieldOption.id = ["1", "2", "3", "4", "5"] ∧
    severityFallback.map FieldOption.value =
      ["1 - Critical", "2 - High", "3 - Medium", "4 - Low", "5 - Trivial"] := by
  refine ⟨?_, ?_, ?_, by decide, by decide⟩
  · intro hsev hfail
    unfold cloudGetFieldOptions
    rw [if_pos hsev]
    rcases hfail with hid | ⟨e, he⟩
    · rw [hid]
      rfl
    · cases htr : jsTruthy fieldId
      · rw [if_neg (by simp [htr])]
      · rw [if_pos (by simp [htr]), he]
  · intro hsev hfail
    unfold dcGetFieldOptions
    rw [if_pos hsev]
    rcases hfail with hid | ⟨e, he⟩
    · rw [hid]
      rfl
    · cases htr : jsTruthy fieldId
      · rw [if_neg (by simp [htr])]
      · rw [if_pos (by simp [htr]), he]
  · intro hne
    unfold cloudGetFieldOptions dcGetFieldOptions
    rw [if_neg hne, if_neg hne]
    exact ⟨rfl, rfl⟩

/-- C7 witness: the fallback theorem applied to the mixed-case name
`Severity` with an unresolved field id on the cloud side and a failed
createmeta fetch on the on-prem side, and the empty-list part applied to
the unrelated field name `priority`. -/
theorem c7_witness :
    cloudGetFieldOptions "Severity" none (Except.ok []) = severityFallback ∧
    dcGetFieldOptions "Severity" (some "customfield_10100")
      (Except.error RequestError.parseError) = severityFallback ∧
    cloudGetFieldOptions "priority" none (Except.ok []) = [] := by
  refine ⟨?_, ?_, ?_⟩
  · exact (c7_severity_fallback "Severity" none (Except.ok []) (Except.ok ⟨none⟩)).1
      (by decide) (Or.inl rfl)
  · exact (c7_severity_fallback "Severity" (some "customfield_10100") (Except.ok [])
      (Except.error RequestError.parseError)).2.1
      (by decide) (Or.inr ⟨RequestError.parseError, rfl⟩)
  · exact ((c7_severity_fallback "priority" none (Except.ok []) (Except.ok ⟨none⟩)).2.2.1
      (by decide)).1

/-- Embedding of the save loop of `saveChanges`
(`src/ui/components/bulk-edit.ts`, lines 194-269): the issue keys are
walked strictly in order, each `updateIssue` call awaited before the next
starts; a success increments `savedCount`, the first failure aborts the
loop inside the `catch` with the count of confirmed successes.  `upd` maps
an issue key to the outcome of its `updateIssue` call; the result is
`(savedCount, attempted keys in order, the error that stopped the loop,
if any)`. -/
def saveLoop (upd : String → Except String Unit) : List String → Nat × List String × Option String
  | [] => (0, [], none)
  | k :: ks =>
    match upd k with
    | Except.ok _ =>
      let r := saveLoop upd ks
      (r.1 + 1, k :: r.2.1, r.2.2)
    | Except.error e => (0, [k], some e)

/-- C8: a bulk update is a strictly sequential loop; when every key before
the failing one updates successfully and the failing key errors, the loop
reports exactly the number of earlier keys as confirmed successes, the
attempted calls are exactly the earlier keys followed by the failing one,
and no later key is ever attempted. -/
theorem c8_sequential_bulk (upd : String → Except String Unit)
    (pre post : List String) (bad : String) (e : String)
    (hpre : ∀ k, k ∈ pre → upd k = Except.ok ())
    (hbad : upd bad = Except.error e) :
    saveLoop upd (pre ++ bad :: post) = (pre.length, pre ++ [bad], some e) := by
  induction pre with
  | nil =>
    simp [saveLoop, hbad]
  | cons x xs ih =>
    have hx : upd x = Except.ok () := hpre x (List.mem_cons_self x xs)
    have ih2 := ih (fun k hk => hpre k (List.mem_cons_of_mem x hk))
    show saveLoop upd (x :: (xs ++ bad :: post)) = _
    simp [saveLoop, hx, ih2]

/-- Concrete updater for the C8 scenario: the second key fails. -/
def failSecondUpdater (k : String) : Except String Unit :=
  if k = "DEMO-2" then Except.error "JIRA API Error: 500 Internal Server Error"
  else Except.ok ()

/-- C8 witness: three keys whose second update fails — exactly one success
is reported, the third key is never attempted. -/
theorem c8_witness :
    saveLoop failSecondUpdater ["DEMO-1", "DEMO-2", "DEMO-3"] =
      (1, ["DEMO-1", "DEMO-2"], some "JIRA API Error: 500 Internal Server Error") :=
  c8_sequential_bulk failSecondUpdater ["DEMO-1"] ["DEMO-3"] "DEMO-2"
    "JIRA API Error: 500 Internal Server Error"
    (by
      intro k hk
      have hk1 : k = "DEMO-1" := by simpa using hk
      rw [hk1]
      rfl)
    rfl

/-- One entry of an edit-metadata `allowedValues` array
(`JiraEditMetaAllowedValue` in `src/api/types.ts`): all fields optional. -/
structure AllowedValue where
  id : Option String
  name : Option String
  value : Option String
  key : Option String
deriving DecidableEq, Repr

/-- The `schema.items` attribute, which the source normalizes from either
a bare string or an object carrying a `type`. -/
inductive SchemaItems where
  | str (s : String) : SchemaItems
  | obj (t : Option String) : SchemaItems
deriving DecidableEq, Repr

/-- Field schema attached to edit metadata (`JiraFieldSchema` plus the
`items` attribute read by `loadFields`). -/
structure JiraFieldSchema where
  type : Option String
  custom : Option String
  items : Option SchemaItems
deriving DecidableEq, Repr

/-- One field of the server's edit-metadata document
(`JiraEditMetaField` in `src/api/types.ts`). -/
structure JiraEditMetaField where
  required : Bool
  name : String
  operations : Option (List String)
  allowedValues : Option (List AllowedValue)
  schema : Option JiraFieldSchema
deriving DecidableEq, Repr

/-- The edit-metadata document: `fields` is a JavaScript object, embedded
as its `Object.entries` list in insertion order. -/
structure JiraEditMetaResponse where
  fields : List (String × JiraEditMetaField)
deriving DecidableEq, Repr

/-- One cached entry (`CachedEditableField` in the fields cache).  The
stored object literal of `putEditMeta` carries only `id`, `name` and
`allowedValues`; the schema attributes read back by `loadFields`
(`schemaType`, `schemaItems`) are never populated by `putEditMeta` and are
kept here as optional slots so the cache-hit branch can be embedded
faithfully. -/
structure CachedEditableField where
  id : String
  name : String
  allowedValues : Option (List AllowedValue)
  schemaType : Option String
  schemaItems : Option String
deriving DecidableEq, Repr

/-- Cache key components (`ProjectIssueTypeKey` in the fields cache). -/
structure ProjectIssueTypeKey where
  baseUrl : String
  mode : JiraMode
  projectKey : String
  issueType : String
deriving DecidableEq, Repr

/-- The mode string as serialized into the cache key. -/
def modeStr : JiraMode → String
  | JiraMode.cloud => "cloud"
  | JiraMode.onprem => "onprem"

/-- Embedding of `makeKey` (`src/config/cache.ts`, lines 88-90): the four
components joined with `|`. -/
def makeKey (k : ProjectIssueTypeKey) : String :=
  k.baseUrl ++ "|" ++ modeStr k.mode ++ "|" ++ k.projectKey ++ "|" ++ k.issueType

/-- The persisted cache (`FieldsCacheData.entries`): a string-keyed object
embedded as an association list in insertion order. -/
structure FieldsCacheData where
  entries : List (String × List (String × CachedEditableField))
deriving DecidableEq, Repr

/-- Lookup in a string-keyed JavaScript object (`data.entries[k]`). -/
def assocGet {α : Type} (es : List (String × α)) (k : String) : Option α :=
  match es with
  | [] => none
  | (k2, v) :: rest => if k2 = k then some v else assocGet rest k

/-- Assignment to a string-keyed JavaScript object
(`data.entries[k] = v`): replaces an existing key in place, appends a new
one. -/
def assocSet {α : Type} (es : List (String × α)) (k : String) (v : α) :
    List (String × α) :=
  match es with
  | [] => [(k, v)]
  | (k2, v2) :: rest => if k2 = k then (k, v) :: rest else (k2, v2) :: assocSet rest k v

theorem assocGet_set_self {α : Type} (es : List (String × α)) (k : String) (v : α) :
    assocGet (assocSet es k v) k = some v := by
  induction es with
  | nil => simp [assocGet, assocSet]
  | cons p rest ih =>
    obtain ⟨k2, v2⟩ := p
    by_cases h : k2 = k
    · simp [assocGet, assocSet, h]
    · simp [assocGet, assocSet, h, ih]

theorem assocGet_set_ne {α : Type} (es : List (String × α)) (k k2 : String) (v : α)
    (h : k2 ≠ k) : assocGet (assocSet es k v) k2 = assocGet es k2 := by
  have h2 : ¬ (k = k2) := fun hx => h hx.symm
  induction es with
  | nil => simp [assocGet, assocSet, h2]
  | cons p rest ih =>
    obtain ⟨k3, v3⟩ := p
    show assocGet (assocSet ((k3, v3) :: rest) k v) k2 = assocGet ((k3, v3) :: rest) k2
    simp only [assocSet, assocGet]
    by_cases h3 : k3 = k
    · rw [if_pos h3]
      simp only [assocGet]
      rw [if_neg h2, if_neg (show ¬ (k3 = k2) from by rw [h3]; exact h2)]
    · rw [if_neg h3]
      simp only [assocGet]
      by_cases hk32 : k3 = k2
      · rw [if_pos hk32, if_pos hk32]
      · rw [if_neg hk32, if_neg hk32, ih]

/-- The normalized entry list `putEditMeta` stores for a document: each
field id maps to an object carrying exactly the id, the field's name, and
its `allowedValues`; `required`, `operations` and `schema` are dropped. -/
def normalizeEditMeta (fields : List (String × JiraEditMetaField)) :
    List (String × CachedEditableField) :=
  fields.map (fun p =>
    (p.1, { id := p.1, name := p.2.name, allowedValues := p.2.allowedValues,
            schemaType := none, schemaItems := none }))

/-- Embedding of `putEditMeta` (`src/config/cache.ts`, lines 92-105): load
the store, overwrite the entry under `makeKey key` with the normalized
mapping, save. -/
def putEditMeta (key : ProjectIssueTypeKey) (editmeta : JiraEditMetaResponse)
    (st : FieldsCacheData) : FieldsCacheData :=
  { entries := assocSet st.entries (makeKey key) (normalizeEditMeta editmeta.fields) }

/-- Embedding of `getFields` (`src/config/cache.ts`, lines 107-111):
`data.entries[k] ?? null`. -/
def getFields (key : ProjectIssueTypeKey) (st : FieldsCacheData) :
    Option (List (String × CachedEditableField)) :=
  assocGet st.entries (makeKey key)

/-- First colliding key of the C10 counterexample. -/
def collideKeyA : ProjectIssueTypeKey :=
  { baseUrl := "https://a|cloud|p", mode := JiraMode.cloud,
    projectKey := "x", issueType := "t" }

/-- Second colliding key of the C10 counterexample: a different 4-tuple
that serializes to the same string key. -/
def collideKeyB : ProjectIssueTypeKey :=
  { baseUrl := "https://a", mode := JiraMode.cloud,
    projectKey := "p|cloud|x", issueType := "t" }

/-- Minimal edit-metadata document used in the cache counterexamples. -/
def sampleEditMeta : JiraEditMetaResponse :=
  { fields := [("summary",
      { required := true, name := "Summary", operations := some ["set"],
        allowedValues := none,
        schema := some { type := some "string", custom := none, items := none } })] }

/-- C10: the claim states that a put leaves the entries of every other key
unchanged.  Refuted: `makeKey` joins the components with `|` without
escaping, so two different keys can serialize to the same string — storing
under the first changes what `getFields` returns for the second (from
`none` to the stored mapping, starting from an empty store). -/
theorem c10_counterexample :
    collideKeyA ≠ collideKeyB ∧
    makeKey collideKeyA = makeKey collideKeyB ∧
    getFields collideKeyB { entries := [] } = none ∧
    getFields collideKeyB (putEditMeta collideKeyA sampleEditMeta { entries := [] }) ≠
      getFields collideKeyB { entries := [] } := by
  refine ⟨by decide, by decide, rfl, by decide⟩

/-- C10 (amended): immediately after `putEditMeta key d`, `getFields key`
returns the mapping whose domain is exactly the field ids of `d`, where
each entry carries exactly the field id, that field's name and its
`allowedValues` (the `required`, `operations` and `schema` attributes are
not retained); and the entry of every other key whose serialized string
key differs is unchanged (distinct 4-tuples can collide on the serialized
key when their components contain the `|` separator, and such keys alias
one entry). -/
theorem c10_put_get (key : ProjectIssueTypeKey) (d : JiraEditMetaResponse)
    (st : FieldsCacheData) :
    getFields key (putEditMeta key d st) = some (normalizeEditMeta d.fields) ∧
    (normalizeEditMeta d.fields).map Prod.fst = d.fields.map Prod.fst ∧
    (∀ fid f, (fid, f) ∈ d.fields →
      (fid, ({ id := fid, name := f.name, allowedValues := f.allowedValues,
               schemaType := none, schemaItems := none } : CachedEditableField)) ∈
        normalizeEditMeta d.fields) ∧
    (∀ key2, makeKey key2 ≠ makeKey key →
      getFields key2 (putEditMeta key d st) = getFields key2 st) := by
  refine ⟨?_, ?_, ?_, ?_⟩
  · unfold getFields putEditMeta
    exact assocGet_set_self st.entries (makeKey key) (normalizeEditMeta d.fields)
  · unfold normalizeEditMeta
    rw [List.map_map]
    rfl
  · intro fid f hmem
    unfold normalizeEditMeta
    exact List.mem_map.mpr ⟨(fid, f), hmem, rfl⟩
  · intro key2 hne
    unfold getFields putEditMeta
    exact assocGet_set_ne st.entries (makeKey key) (makeKey key2) _ hne

/-- C10 witness: the put/get law applied to a concrete key, document and
empty store, including the frame condition for a key with a different
serialized string. -/
theorem c10_witness :
    getFields collideKeyA (putEditMeta collideKeyA sampleEditMeta { entries := [] }) =
      some (normalizeEditMeta sampleEditMeta.fields) ∧
    getFields
      { baseUrl := "https://b", mode := JiraMode.onprem,
        projectKey := "q", issueType := "Bug" }
      (putEditMeta collideKeyA sampleEditMeta { entries := [] }) =
      getFields
        { baseUrl := "https://b", mode := JiraMode.onprem,
          projectKey := "q", issueType := "Bug" } { entries := [] } :=
  ⟨(c10_put_get collideKeyA sampleEditMeta { entries := [] }).1,
   (c10_put_get collideKeyA sampleEditMeta { entries := [] }).2.2.2
     { baseUrl := "https://b", mode := JiraMode.onprem,
       projectKey := "q", issueType := "Bug" } (by decide)⟩

/-- Field kinds of `EditableField` in
`src/ui/components/field-selector.ts`: the string union
`"text" | "choice" | "array-text"`. -/
inductive FieldType where
  | text : FieldType
  | choice : FieldType
  | arrayText : FieldType
deriving DecidableEq, Repr

/-- Editable field as `loadFields` produces it (`EditableField` in
`src/ui/components/field-selector.ts`). -/
structure EditableField where
  key : String
  label : String
  type : FieldType
  fieldId : Option String
  options : Option (List FieldOption)
deriving DecidableEq, Repr

/-- JavaScript `a ?? b ?? c ?? d ?? ""` on optional strings: the first
present value, else the empty string (nullish coalescing keeps a present
empty string). -/
def coalesce4 (a b c d : Option String) : String :=
  match a with
  | some x => x
  | none =>
    match b with
    | some x => x
    | none =>
      match c with
      | some x => x
      | none =>
        match d with
        | some x => x
        | none => ""

/-- Embedding of `normalizeAllowedValues`
(`src/ui/components/field-selector.ts`, lines 214-221). -/
def normalizeAllowedValues (values : Option (List AllowedValue)) : List FieldOption :=
  match values with
  | none => []
  | some vs =>
    vs.map (fun v =>
      { id := coalesce4 v.id v.key v.value v.name,
        value := coalesce4 v.name v.value v.key v.id,
        name := v.name })

/-- Substring test used for the `customKey.includes(":...")` checks:
`splitOn` yields more than one piece exactly when the needle occurs. -/
def strIncludes (hay needle : String) : Bool :=
  decide (1 < (hay.splitOn needle).length)

/-- The `schema.items` normalization of `loadFields`: a bare string is
taken as is, an object contributes its `type`. -/
def normalizedSchemaItems (items : Option SchemaItems) : Option String :=
  match items with
  | some (SchemaItems.str s) => some s
  | some (SchemaItems.obj t) => t
  | none => none

/-- The fetch-branch field mapping of `loadFields`
(`src/ui/components/field-selector.ts`, lines 243-265): fields without a
schema are skipped; string fields map to text, array-of-string to
array-text; otherwise a field maps to choice when its custom key marks a
selection control or it has `allowedValues`, and is skipped otherwise. -/
def mapFetchedField (fid : String) (f : JiraEditMetaField) : Option EditableField :=
  match f.schema with
  | none => none
  | some schema =>
    let schemaItems := normalizedSchemaItems schema.items
    if schema.type = some "string" then
      some { key := f.name, label := f.name, type := FieldType.text,
             fieldId := some fid, options := none }
    else if schema.type = some "array" ∧ schemaItems = some "string" then
      some { key := f.name, label := f.name, type := FieldType.arrayText,
             fieldId := some fid, options := none }
    else
      let customKey := (schema.custom).getD ""
      let isSelect :=
        strIncludes customKey ":select" || strIncludes customKey ":multiselect" ||
        strIncludes customKey ":radiobuttons" || strIncludes customKey ":multicheckboxes" ||
        strIncludes customKey ":cascadingselect"
      if isSelect || f.allowedValues.isSome then
        some { key := f.name, label := f.name, type := FieldType.choice,
               fieldId := some fid,
               options := some (normalizeAllowedValues f.allowedValues) }
      else none

/-- The cache-hit field mapping of `loadFields`
(`src/ui/components/field-selector.ts`, lines 266-278): driven by the
stored `schemaType` and `schemaItems` attributes and the normalized
options. -/
def mapCachedField (fid : String) (f : CachedEditableField) : EditableField :=
  let options := normalizeAllowedValues f.allowedValues
  if f.schemaType = some "array" ∧ f.schemaItems = some "string" then
    { key := f.name, label := f.name, type := FieldType.arrayText,
      fieldId := some fid, options := none }
  else if 0 < options.length then
    { key := f.name, label := f.name, type := FieldType.choice,
      fieldId := some fid, options := some options }
  else
    { key := f.name, label := f.name, type := FieldType.text,
      fieldId := some fid, options := none }

/-- The hardcoded Summary entry always heading `AVAILABLE_FIELDS`. -/
def summaryField : EditableField :=
  { key := "summary", label := "Summary", type := FieldType.text,
    fieldId := none, options := none }

/-- The final `AVAILABLE_FIELDS` assembly of `loadFields`
(`src/ui/components/field-selector.ts`, lines 280-283): Summary first,
then every mapped field that is not itself named summary. -/
def availableFields (mapped : List EditableField) : List EditableField :=
  summaryField :: mapped.filter (fun m => !(lowerAscii m.key = "summary"))

/-- Embedding of one run of `loadFields`
(`src/ui/components/field-selector.ts`, lines 223-294).  `editmeta` is the
document `client.getIssueEditMeta` would deliver on a live fetch (that
client method is not part of the visible client source; its result is
passed as an oracle).  The result is the produced field list, the cache
state after the run, and how many live fetches the run issued. -/
def loadFieldsOnce (key : ProjectIssueTypeKey) (editmeta : JiraEditMetaResponse)
    (st : FieldsCacheData) : List EditableField × FieldsCacheData × Nat :=
  match getFields key st with
  | none =>
    (availableFields (editmeta.fields.filterMap (fun p => mapFetchedField p.1 p.2)),
     putEditMeta key editmeta st, 1)
  | some cached =>
    (availableFields (cached.map (fun p => mapCachedField p.1 p.2)), st, 0)

/-- The cache key of the C9 scenario. -/
def demoMetaKey : ProjectIssueTypeKey :=
  { baseUrl := "https://jira.example.com", mode := JiraMode.onprem,
    projectKey := "DEMO", issueType := "Task" }

/-- Edit metadata of the C9 counterexample: one array-of-string field
(such as labels). -/
def labelsEditMeta : JiraEditMetaResponse :=
  { fields := [("labels",
      { required := false, name := "Labels", operations := some ["set"],
        allowedValues := none,
        schema := some { type := some "array", custom := none,
                         items := some (SchemaItems.str "string") } })] }

/-- C9: the claim states that the second load yields field-for-field
identical data to the first.  Refuted: loading an array-of-string field
twice issues exactly one live fetch, but the first (fetched) load
classifies the field as array-text while the second (cache-served) load
classifies it as text, because `putEditMeta` stores no schema attributes —
the two field lists differ. -/
theorem c9_counterexample :
    (loadFieldsOnce demoMetaKey labelsEditMeta { entries := [] }).2.2 +
      (loadFieldsOnce demoMetaKey labelsEditMeta
        (loadFieldsOnce demoMetaKey labelsEditMeta { entries := [] }).2.1).2.2 = 1 ∧
    (loadFieldsOnce demoMetaKey labelsEditMeta
        (loadFieldsOnce demoMetaKey labelsEditMeta { entries := [] }).2.1).1 ≠
      (loadFieldsOnce demoMetaKey labelsEditMeta { entries := [] }).1 := by
  refine ⟨by decide, by decide⟩

/-- C9 (amended): with the metadata cache present, performing the
edit-field load twice for the same key issues exactly one live fetch: a
first load on a cache miss fetches once and stores the document, and the
second load issues no fetch and leaves the cache unchanged — it is served
entirely from the cache (the served data, however, need not be
field-for-field identical to the first load, since the stored entries
carry no schema attributes). -/
theorem c9_single_fetch (key : ProjectIssueTypeKey) (em : JiraEditMetaResponse)
    (st : FieldsCacheData) (h : getFields key st = none) :
    (loadFieldsOnce key em st).2.2 = 1 ∧
    (loadFieldsOnce key em ((loadFieldsOnce key em st).2.1)).2.2 = 0 ∧
    (loadFieldsOnce key em ((loadFieldsOnce key em st).2.1)).2.1 =
      (loadFieldsOnce key em st).2.1 ∧
    (loadFieldsOnce key em ((loadFieldsOnce key em st).2.1)).1 =
      availableFields ((normalizeEditMeta em.fields).map
        (fun p => mapCachedField p.1 p.2)) := by
  have hfirst : (loadFieldsOnce key em st).2.1 = putEditMeta key em st := by
    unfold loadFieldsOnce
    rw [h]
  have hget : getFields key (putEditMeta key em st) = some (normalizeEditMeta em.fields) := by
    unfold getFields putEditMeta
    exact assocGet_set_self st.entries (makeKey key) (normalizeEditMeta em.fields)
  refine ⟨?_, ?_, ?_, ?_⟩
  · unfold loadFieldsOnce
    rw [h]
  · rw [hfirst]
    unfold loadFieldsOnce
    rw [hget]
  · rw [hfirst]
    show (loadFieldsOnce key em (putEditMeta key em st)).2.1 = putEditMeta key em st
    unfold loadFieldsOnce
    rw [hget]
  · rw [hfirst]
    unfold loadFieldsOnce
    rw [hget]

/-- C9 witness: the single-fetch law applied to the concrete scenario key,
document and empty store. -/
theorem c9_witness :
    (loadFieldsOnce demoMetaKey labelsEditMeta { entries := [] }).2.2 = 1 ∧
    (loadFieldsOnce demoMetaKey labelsEditMeta
      (loadFieldsOnce demoMetaKey labelsEditMeta { entries := [] }).2.1).2.2 = 0 :=
  ⟨(c9_single_fetch demoMetaKey labelsEditMeta { entries := [] } rfl).1,
   (c9_single_fetch demoMetaKey labelsEditMeta { entries := [] } rfl).2.1⟩

end JiraTui
